import Mathlib

/-!
Verification of the user-task bootstrap and trap-dispatch core of
`app-lazymapping` (`src/task.rs`, `spawn_user_task`).

The embedding models:
- the page table of the task's `AddrSpace` as an association list from
  4K-aligned virtual addresses to translation entries, with the serialized
  `map`/`unmap` mutation primitives of the external paging collaborator;
- the pre-unmap pass that `spawn_user_task`'s task body runs before the
  first user-mode entry;
- one iteration of the trap dispatch loop (`loop { match uctx.run() ... }`)
  as a function from the `ReturnReason` produced by `run()` to the
  iteration's outcome: resume the loop, terminate the task with an exit
  code, or panic (an `unwrap` failure or an out-of-bounds slice index).
-/

namespace LazyMapping

/-- Page size constant `axhal::mem::PAGE_SIZE_4K`. -/
def PAGE_SIZE_4K : Nat := 4096

/-- Page sizes used by the program; only `PageSize::Size4K` occurs. -/
inductive PageSize where
  | Size4K
deriving DecidableEq, Repr

/-- Byte count of a page size (`PageSize::Size4K.into()`). -/
def pageSizeBytes : PageSize → Nat
  | .Size4K => PAGE_SIZE_4K

/-- Mapping permission flags (`axhal::paging::MappingFlags`), modelled as
one boolean per permission bit the program touches. -/
structure MappingFlags where
  read : Bool
  write : Bool
  user : Bool
deriving DecidableEq, Repr

/-- The `READ` flag. -/
def MappingFlags.READ : MappingFlags := ⟨true, false, false⟩

/-- The `WRITE` flag. -/
def MappingFlags.WRITE : MappingFlags := ⟨false, true, false⟩

/-- The `USER` flag. -/
def MappingFlags.USER : MappingFlags := ⟨false, false, true⟩

/-- Bitwise union of flags (the `|` operator on `MappingFlags`). -/
def MappingFlags.union (a b : MappingFlags) : MappingFlags :=
  ⟨a.read || b.read, a.write || b.write, a.user || b.user⟩

/-- The flag value `MappingFlags::READ | MappingFlags::WRITE | MappingFlags::USER`
passed by the fault handler. -/
def rwUser : MappingFlags :=
  (MappingFlags.READ.union MappingFlags.WRITE).union MappingFlags.USER

/-- A translation entry installed by `map`: target physical frame, page
size and permission flags. -/
structure PTEntry where
  paddr : Nat
  size : PageSize
  flags : MappingFlags
deriving DecidableEq, Repr

/-- The page table of the task's address space, at 4K granularity: an
association list from 4K-aligned virtual addresses to entries. -/
def PageTable := List (Nat × PTEntry)

instance : DecidableEq PageTable := by
  unfold PageTable
  infer_instance

/-- Errors of the external paging primitives (`map`/`unmap` return
`Result`). -/
inductive PagingError where
  | NotMapped
  | AlreadyMapped
deriving DecidableEq, Repr

/-- Translation lookup: the entry the page table holds for a virtual
address, if any. -/
def ptLookup : PageTable → Nat → Option PTEntry
  | [], _ => none
  | (a, e) :: rest, k => if k = a then some e else ptLookup rest k

/-- Remove every entry keyed at `va` from the table. -/
def ptRemove : PageTable → Nat → PageTable
  | [], _ => []
  | (a, e) :: rest, va => if a = va then ptRemove rest va else (a, e) :: ptRemove rest va

/-- Modelled from the spec: the external AddressSpace `unmap(vpage) -> Result`
primitive (the `axmm`/page-table crates are outside this repository).
Unmapping an absent entry is the failure case the spec calls
"Unmap-of-absent-entry". -/
def ptUnmap (pt : PageTable) (va : Nat) : Except PagingError PageTable :=
  if (ptLookup pt va).isSome then .ok (ptRemove pt va) else .error .NotMapped

/-- Modelled from the spec: the external AddressSpace
`map(vpage, frame, size, flags) -> Result` primitive. It installs exactly
one new entry and fails when a translation is already present (the
fallible-`Result` behaviour the fault handler `unwrap`s). -/
def ptMap (pt : PageTable) (va paddr : Nat) (sz : PageSize) (fl : MappingFlags) :
    Except PagingError PageTable :=
  if (ptLookup pt va).isSome then .error .AlreadyMapped
  else .ok ((va, ⟨paddr, sz, fl⟩) :: pt)

/-- Align a virtual address down to the 4096-byte page boundary
(`VirtAddr::align_down_4k`). -/
def align4k (a : Nat) : Nat := a / PAGE_SIZE_4K * PAGE_SIZE_4K

/-- The page index the fault handler computes:
`(aligned_va.as_usize() - ustack_vaddr.as_usize()) / page_size`. -/
def pageIndex (ustack_vaddr addr : Nat) : Nat :=
  (align4k addr - ustack_vaddr) / PAGE_SIZE_4K

/-- The pre-allocated physical frame pool `axmm::backend::SharedPages`;
the handler reads its `phys_pages` sequence by index. -/
structure SharedPages where
  phys_pages : List Nat
deriving DecidableEq, Repr

/-- The user execution context built by `UserContext::new(entry, sp, 0)`. -/
structure UserContext where
  entry : Nat
  sp : Nat
  arg0 : Nat
deriving DecidableEq, Repr

/-- The `ReturnReason` classification produced by `UserContext::run()`.
The page-fault access flags and the `Other` trap descriptor are carried as
opaque numbers. -/
inductive ReturnReason where
  | Syscall
  | PageFault (vaddr : Nat) (flags : Nat)
  | Other (desc : Nat)
deriving DecidableEq, Repr

/-- The closure environment of the dispatch loop: the stack range bounds
and the shared frame pool captured by `spawn_user_task`'s task body. -/
structure DispatchEnv where
  ustack_top : Nat
  ustack_vaddr : Nat
  stack_pages : SharedPages
deriving DecidableEq, Repr

/-- Outcome of one iteration of the dispatch loop: continue looping with
the (possibly updated) page table and context, terminate the task via
`axtask::exit(code)`, or panic (`unwrap` on a failed `map`, or the
out-of-bounds branch of `stack_pages.phys_pages[page_idx]`). -/
inductive StepResult where
  | Continue (pt : PageTable) (ctx : UserContext)
  | Exit (code : Int) (pt : PageTable) (ctx : UserContext)
  | Panic
deriving DecidableEq

/-- One iteration of the trap dispatch loop in `spawn_user_task`'s task
body: `match aligned_uctx.0.run() { ... }`. The syscall gateway
(`syscall::handle_syscall`, an external collaborator) is passed as the
function `gw`, returning the optional exit code and the mutated context. -/
def dispatchStep (env : DispatchEnv) (gw : UserContext → Option Int × UserContext)
    (pt : PageTable) (ctx : UserContext) : ReturnReason → StepResult
  | .Syscall =>
    match gw ctx with
    | (some exit_code, ctx') => .Exit exit_code pt ctx'
    | (none, ctx') => .Continue pt ctx'
  | .PageFault vaddr _flags =>
    if env.ustack_vaddr ≤ vaddr ∧ vaddr < env.ustack_top then
      match env.stack_pages.phys_pages[pageIndex env.ustack_vaddr vaddr]? with
      | none => .Panic
      | some paddr =>
        match ptMap pt (align4k vaddr) paddr PageSize.Size4K rwUser with
        | .error _ => .Panic
        | .ok pt' => .Continue pt' ctx
    else .Exit (-1) pt ctx
  | .Other _ => .Exit (-1) pt ctx

/-- One step of the pre-unmap pass: `let _ = ptmod.unmap(va);` — the
result is discarded, so a failed unmap leaves the table as it was. -/
def unmapStep (pt : PageTable) (va : Nat) : PageTable :=
  match ptUnmap pt va with
  | .ok pt' => pt'
  | .error _ => pt

/-- The pre-unmap pass of the task body: for `i` in
`0..(ustack_top - ustack_vaddr) / PAGE_SIZE_4K`, unmap
`ustack_vaddr + i * PAGE_SIZE_4K`, tolerating individual failures. -/
def unmapAll (pt : PageTable) (ustack_vaddr ustack_top : Nat) : PageTable :=
  (List.range ((ustack_top - ustack_vaddr) / PAGE_SIZE_4K)).foldl
    (fun acc i => unmapStep acc (ustack_vaddr + i * PAGE_SIZE_4K)) pt

/-- The task's address space handle: its page table and the page-table
root captured by `uspace.page_table_root()`. -/
structure AddrSpace where
  page_table : PageTable
  root : Nat

/-- The schedulable task `spawn_user_task` hands to `axtask::spawn_task`:
its name, the recorded page-table root, and the closure environment of
its dispatch-loop body. -/
structure SpawnedTask where
  name : String
  page_table_root : Nat
  env : DispatchEnv

/-- The body of `spawn_user_task` up to `axtask::spawn_task(task)`: it
builds the task unconditionally — there is no validation of
`stack_pages` against the stack range anywhere on this path. -/
def spawn_user_task (uspace : AddrSpace) (ustack_top ustack_vaddr : Nat)
    (stack_pages : SharedPages) : SpawnedTask :=
  { name := "userboot"
    page_table_root := uspace.root
    env := { ustack_top := ustack_top, ustack_vaddr := ustack_vaddr
             stack_pages := stack_pages } }

/-- A syscall gateway that always asks to resume user mode. -/
def gwResume : UserContext → Option Int × UserContext := fun c => (none, c)

/-- A syscall gateway that always asks to exit with code 3. -/
def gwExit3 : UserContext → Option Int × UserContext := fun c => (some 3, c)

/-- A concrete user context used by the witnesses. -/
def ctx0 : UserContext := ⟨0x1000, 0x3000, 0⟩

/-- A concrete dispatch environment used by the witnesses: a two-page
stack `[0x1000, 0x3000)` backed by frames `100` and `200`. -/
def env1 : DispatchEnv := ⟨0x3000, 0x1000, ⟨[100, 200]⟩⟩

/-- Removing key `va` empties exactly the lookups at `va` and leaves every
other lookup unchanged. -/
theorem ptLookup_ptRemove (pt : PageTable) (va k : Nat) :
    ptLookup (ptRemove pt va) k = if k = va then none else ptLookup pt k := by
  induction pt with
  | nil => simp [ptRemove, ptLookup]
  | cons hd tl ih =>
    obtain ⟨a, e⟩ := hd
    by_cases hav : a = va <;> by_cases hka : k = a <;>
      simp [ptRemove, ptLookup, hav, hka, ih] <;> simp_all

/-- After one discarded-result unmap of `va`, no translation for `va`
remains, whether the unmap succeeded or failed. -/
theorem ptLookup_unmapStep_self (pt : PageTable) (va : Nat) :
    ptLookup (unmapStep pt va) va = none := by
  cases hl : ptLookup pt va with
  | none => simp [unmapStep, ptUnmap, hl]
  | some e => simp [unmapStep, ptUnmap, hl, ptLookup_ptRemove]

/-- A discarded-result unmap never introduces a translation: an absent
lookup stays absent. -/
theorem ptLookup_unmapStep_none (pt : PageTable) (va k : Nat)
    (h : ptLookup pt k = none) : ptLookup (unmapStep pt va) k = none := by
  cases hl : ptLookup pt va with
  | none => simp [unmapStep, ptUnmap, hl, h]
  | some e => simp [unmapStep, ptUnmap, hl, ptLookup_ptRemove, h]

/-- The unmap loop preserves absence of a translation. -/
theorem ptLookup_foldl_unmap_none (l : List Nat) (base : Nat) (pt : PageTable) (k : Nat)
    (h : ptLookup pt k = none) :
    ptLookup (l.foldl (fun acc i => unmapStep acc (base + i * PAGE_SIZE_4K)) pt) k = none := by
  induction l generalizing pt with
  | nil => simpa using h
  | cons j l ih =>
    exact ih (unmapStep pt (base + j * PAGE_SIZE_4K)) (ptLookup_unmapStep_none pt _ k h)

/-- The unmap loop clears the translation of every page index it visits. -/
theorem ptLookup_foldl_unmap_mem (l : List Nat) (base : Nat) (pt : PageTable) (i : Nat)
    (h : i ∈ l) :
    ptLookup (l.foldl (fun acc i => unmapStep acc (base + i * PAGE_SIZE_4K)) pt)
      (base + i * PAGE_SIZE_4K) = none := by
  induction l generalizing pt with
  | nil => cases h
  | cons j l ih =>
    rcases List.mem_cons.mp h with rfl | hmem
    · exact ptLookup_foldl_unmap_none l base _ _ (ptLookup_unmapStep_self pt _)
    · exact ih (unmapStep pt (base + j * PAGE_SIZE_4K)) hmem

/-- When both range bounds are 4K-aligned and the fault address is in
range, the handler's page index is below the range's page count. -/
theorem pageIndex_lt (base top addr : Nat) (hb : base % PAGE_SIZE_4K = 0)
    (ht : top % PAGE_SIZE_4K = 0) (h1 : base ≤ addr) (h2 : addr < top) :
    pageIndex base addr < (top - base) / PAGE_SIZE_4K := by
  unfold pageIndex align4k PAGE_SIZE_4K at *
  omega

/-- C4: before the first user-mode entry, the task body's single unmap
pass visits all `(top - base) / 4096` pages of the stack range, tolerates
individual unmap failures (the quantification over arbitrary initial page
tables includes tables where some pages were never mapped, so their unmap
fails), and afterwards no translation entry exists for any page of the
range. -/
theorem preunmap_clears_virtual_range (pt : PageTable) (ustack_vaddr ustack_top i : Nat)
    (h : i < (ustack_top - ustack_vaddr) / PAGE_SIZE_4K) :
    ptLookup (unmapAll pt ustack_vaddr ustack_top) (ustack_vaddr + i * PAGE_SIZE_4K) = none := by
  unfold unmapAll
  exact ptLookup_foldl_unmap_mem _ ustack_vaddr pt i (List.mem_range.mpr h)

/-- Witness for C4: a two-page range whose first page is mapped and whose
second page is not (so its unmap fails); the pass still clears page 0. -/
theorem preunmap_witness :
    ptLookup (unmapAll [(0x1000, ⟨1, PageSize.Size4K, rwUser⟩)] 0x1000 0x3000)
      (0x1000 + 0 * PAGE_SIZE_4K) = none :=
  preunmap_clears_virtual_range _ 0x1000 0x3000 0 (by decide)

/-- C2: a page fault below the stack base or at/above the stack top makes
the dispatch loop terminate the task with exit code `-1`; the page table
carried by the `Exit` outcome is the unchanged input table, so no mapping
was attempted on this path. -/
theorem out_of_range_fault_exits_minus_one (env : DispatchEnv)
    (gw : UserContext → Option Int × UserContext) (pt : PageTable) (ctx : UserContext)
    (addr f : Nat) (h : addr < env.ustack_vaddr ∨ env.ustack_top ≤ addr) :
    dispatchStep env gw pt ctx (.PageFault addr f) = .Exit (-1) pt ctx := by
  simp only [dispatchStep]
  rw [if_neg (by omega)]

/-- Witness for C2: a fault one page below the range terminates with `-1`
and leaves the empty page table empty. -/
theorem out_of_range_witness :
    dispatchStep env1 gwResume [] ctx0 (.PageFault 0xFFF 0) = .Exit (-1) [] ctx0 :=
  out_of_range_fault_exits_minus_one env1 gwResume [] ctx0 0xFFF 0 (Or.inl (by decide))

/-- C8: every `ReturnReason` other than `Syscall` and `PageFault` (the
`Other` arm, i.e. the `_ =>` match arm of the loop) terminates the task
with exit code `-1` and never resumes the user context. -/
theorem unexpected_trap_exits_minus_one (env : DispatchEnv)
    (gw : UserContext → Option Int × UserContext) (pt : PageTable) (ctx : UserContext)
    (desc : Nat) :
    dispatchStep env gw pt ctx (.Other desc) = .Exit (-1) pt ctx := rfl

/-- C7: on a `Syscall` return the loop delegates to the syscall gateway
with the context; a `Some(code)` answer terminates the task with exactly
that code, and a `None` answer resumes the loop with the gateway-mutated
context and an untouched page table. -/
theorem syscall_gateway_dispatch (env : DispatchEnv)
    (gw : UserContext → Option Int × UserContext) (pt : PageTable) (ctx : UserContext) :
    (∀ c ctx2, gw ctx = (some c, ctx2) →
       dispatchStep env gw pt ctx .Syscall = .Exit c pt ctx2) ∧
    (∀ ctx2, gw ctx = (none, ctx2) →
       dispatchStep env gw pt ctx .Syscall = .Continue pt ctx2) := by
  constructor
  · intro c ctx2 h
    simp [dispatchStep, h]
  · intro ctx2 h
    simp [dispatchStep, h]

/-- Witness for C7: an exit-3 gateway terminates with code 3 and a
resume gateway continues the loop. -/
theorem syscall_gateway_witness :
    dispatchStep env1 gwExit3 [] ctx0 .Syscall = .Exit 3 [] ctx0 ∧
    dispatchStep env1 gwResume [] ctx0 .Syscall = .Continue [] ctx0 :=
  ⟨(syscall_gateway_dispatch env1 gwExit3 [] ctx0).1 3 ctx0 rfl,
   (syscall_gateway_dispatch env1 gwResume [] ctx0).2 ctx0 rfl⟩

/-- C1: for a fault at `addr` with `base ≤ addr < top` on a task whose
range bounds are 4K-aligned and whose pool is sized to the range (the §3
data-model invariant) and whose faulting page holds no translation yet (a
page with a present read+write+user translation cannot fault), the
handler installs exactly one new entry — the result table is the input
table extended with precisely the pair mapping `align_down_4k(addr)` to
`phys_pages[(align_down_4k(addr) - base) / 4096]` at 4K size with
read+write+user flags — and the iteration continues the loop. -/
theorem in_range_fault_installs_exactly_one_mapping
    (base top : Nat) (pool : List Nat) (gw : UserContext → Option Int × UserContext)
    (pt : PageTable) (ctx : UserContext) (addr f : Nat)
    (hb : base % PAGE_SIZE_4K = 0) (ht : top % PAGE_SIZE_4K = 0)
    (hlen : pool.length = (top - base) / PAGE_SIZE_4K)
    (h1 : base ≤ addr) (h2 : addr < top)
    (hfree : ptLookup pt (align4k addr) = none) :
    ∃ paddr, pool[pageIndex base addr]? = some paddr ∧
      dispatchStep ⟨top, base, ⟨pool⟩⟩ gw pt ctx (.PageFault addr f)
        = .Continue ((align4k addr, ⟨paddr, PageSize.Size4K, rwUser⟩) :: pt) ctx := by
  have hidx : pageIndex base addr < pool.length := by
    rw [hlen]
    exact pageIndex_lt base top addr hb ht h1 h2
  refine ⟨pool[pageIndex base addr], List.getElem?_eq_getElem hidx, ?_⟩
  simp only [dispatchStep]
  rw [if_pos ⟨h1, h2⟩]
  simp only [List.getElem?_eq_getElem hidx]
  simp [ptMap, hfree]

/-- Witness for C1: a fault at `0x2FFF` in a two-page `[0x1000, 0x3000)`
stack maps page `0x2000` to the second pool frame and continues. -/
theorem in_range_fault_witness :
    ∃ paddr, ([100, 200] : List Nat)[pageIndex 0x1000 0x2FFF]? = some paddr ∧
      dispatchStep ⟨0x3000, 0x1000, ⟨[100, 200]⟩⟩ gwResume [] ctx0 (.PageFault 0x2FFF 0)
        = .Continue ((align4k 0x2FFF, ⟨paddr, PageSize.Size4K, rwUser⟩) :: []) ctx0 :=
  in_range_fault_installs_exactly_one_mapping 0x1000 0x3000 [100, 200] gwResume [] ctx0
    0x2FFF 0 (by decide) (by decide) (by decide) (by decide) (by decide) rfl

/-- Counterexample for C5: the pool-size precondition alone does not keep
the index in bounds. With `base = 0`, `top = 4097` and a one-frame pool,
`[42].length = (4097 - 0) / 4096` holds and `addr = 4096` is in range,
yet the computed page index is not below the pool length and the handler
takes the out-of-bounds branch (a panic). -/
theorem page_index_bound_counterexample :
    ([42] : List Nat).length = (4097 - 0) / PAGE_SIZE_4K ∧ (0 : Nat) ≤ 4096 ∧ 4096 < 4097 ∧
    ¬ pageIndex 0 4096 < ([42] : List Nat).length ∧
    dispatchStep ⟨4097, 0, ⟨[42]⟩⟩ gwResume [] ctx0 (.PageFault 4096 0) = .Panic :=
  ⟨by decide, by decide, by decide, by decide, by decide⟩

/-- C5 (amended): under the pool-size precondition together with the §3
invariant that both range bounds are 4K-aligned, every in-range fault
address yields a page index strictly below the pool length, so the
unchecked pool lookup always succeeds. -/
theorem page_index_in_bounds_aligned (base top addr : Nat) (pool : List Nat)
    (hb : base % PAGE_SIZE_4K = 0) (ht : top % PAGE_SIZE_4K = 0)
    (hlen : pool.length = (top - base) / PAGE_SIZE_4K)
    (h1 : base ≤ addr) (h2 : addr < top) :
    pageIndex base addr < pool.length ∧ pool[pageIndex base addr]?.isSome := by
  have hidx : pageIndex base addr < pool.length := by
    rw [hlen]
    exact pageIndex_lt base top addr hb ht h1 h2
  exact ⟨hidx, by simp [List.getElem?_eq_getElem hidx]⟩

/-- Witness for the amended C5 at a concrete aligned two-page range. -/
theorem page_index_in_bounds_witness :
    pageIndex 0x1000 0x2FFF < ([100, 200] : List Nat).length ∧
    ([100, 200] : List Nat)[pageIndex 0x1000 0x2FFF]?.isSome :=
  page_index_in_bounds_aligned 0x1000 0x3000 0x2FFF [100, 200]
    (by decide) (by decide) (by decide) (by decide) (by decide)

/-- C6: when the map operation for an in-range fault fails (the modelled
`map` primitive fails exactly when a translation is already present), the
`unwrap` in the handler turns the failure into a panic — the iteration's
outcome is `Panic`, never a resumed loop. -/
theorem map_failure_is_hard_panic (base top : Nat) (pool : List Nat)
    (gw : UserContext → Option Int × UserContext) (pt : PageTable) (ctx : UserContext)
    (addr f : Nat) (h1 : base ≤ addr) (h2 : addr < top)
    (hidx : pageIndex base addr < pool.length)
    (hmapped : (ptLookup pt (align4k addr)).isSome) :
    dispatchStep ⟨top, base, ⟨pool⟩⟩ gw pt ctx (.PageFault addr f) = .Panic := by
  simp only [dispatchStep]
  rw [if_pos ⟨h1, h2⟩]
  simp only [List.getElem?_eq_getElem hidx]
  simp [ptMap, hmapped]

/-- Witness for C6: an in-range fault whose page already holds a
translation makes `map` fail and the handler panic. -/
theorem map_failure_witness :
    dispatchStep ⟨0x3000, 0x1000, ⟨[100, 200]⟩⟩ gwResume
      [(0x2000, ⟨200, PageSize.Size4K, rwUser⟩)] ctx0 (.PageFault 0x2FFF 0) = .Panic :=
  map_failure_is_hard_panic 0x1000 0x3000 [100, 200] gwResume
    [(0x2000, ⟨200, PageSize.Size4K, rwUser⟩)] ctx0 0x2FFF 0
    (by decide) (by decide) (by decide) (by decide)

/-- C9: the access-flags component of `PageFault(addr, flags)` is never
examined — the iteration's outcome is literally the same term for any two
flag values — and whenever an in-range fault continues the loop, the
installed translation carries exactly the read+write+user flags. -/
theorem access_flags_never_examined (env : DispatchEnv)
    (gw : UserContext → Option Int × UserContext) (pt : PageTable) (ctx : UserContext)
    (addr f1 f2 : Nat) :
    dispatchStep env gw pt ctx (.PageFault addr f1)
      = dispatchStep env gw pt ctx (.PageFault addr f2) ∧
    (∀ pt2 ctx2, env.ustack_vaddr ≤ addr → addr < env.ustack_top →
       dispatchStep env gw pt ctx (.PageFault addr f1) = .Continue pt2 ctx2 →
       ∃ paddr, ptLookup pt2 (align4k addr) = some ⟨paddr, PageSize.Size4K, rwUser⟩) := by
  refine ⟨rfl, ?_⟩
  intro pt2 ctx2 h1 h2 h
  simp only [dispatchStep] at h
  rw [if_pos ⟨h1, h2⟩] at h
  cases hp : env.stack_pages.phys_pages[pageIndex env.ustack_vaddr addr]? with
  | none => rw [hp] at h; cases h
  | some paddr =>
    rw [hp] at h
    by_cases hm : (ptLookup pt (align4k addr)).isSome
    · simp [ptMap, hm] at h
    · simp [ptMap, hm] at h
      obtain ⟨hpt, hctx⟩ := h
      exact ⟨paddr, by simp [← hpt, ptLookup]⟩

/-- Witness for C9: a read-flagged and a write-flagged fault at `0x2FFF`
give the same outcome, and the installed entry carries read+write+user. -/
theorem access_flags_witness :
    (dispatchStep env1 gwResume [] ctx0 (.PageFault 0x2FFF 1)
       = dispatchStep env1 gwResume [] ctx0 (.PageFault 0x2FFF 2)) ∧
    (∃ paddr, ptLookup [(0x2000, ⟨200, PageSize.Size4K, rwUser⟩)] (align4k 0x2FFF)
       = some ⟨paddr, PageSize.Size4K, rwUser⟩) :=
  ⟨(access_flags_never_examined env1 gwResume [] ctx0 0x2FFF 1 2).1,
   (access_flags_never_examined env1 gwResume [] ctx0 0x2FFF 1 2).2
     [(0x2000, ⟨200, PageSize.Size4K, rwUser⟩)] ctx0 (by decide) (by decide) (by decide)⟩

/-- Counterexample for C3: `spawn_user_task` produces a ready task even
when `stack_pages.phys_pages.len()` differs from
`(ustack_top - ustack_vaddr) / 4096` (a one-frame pool for a two-page
range) — no validation or assertion exists at bootstrap — and the
mismatch surfaces later as a runtime fault: a legitimate in-range page
fault on the unbacked page panics on the out-of-bounds pool index. -/
theorem spawn_no_validation_counterexample :
    (spawn_user_task ⟨[], 7⟩ 0x3000 0x1000 ⟨[42]⟩).name = "userboot" ∧
    ([42] : List Nat).length ≠ (0x3000 - 0x1000) / PAGE_SIZE_4K ∧
    dispatchStep (spawn_user_task ⟨[], 7⟩ 0x3000 0x1000 ⟨[42]⟩).env gwResume [] ctx0
      (.PageFault 0x2000 0) = .Panic :=
  ⟨rfl, by decide, by decide⟩

/-- C3 (amended): `spawn_user_task` performs no size validation at task
bootstrap — it stores its arguments in the task body's environment
unchanged for every pool — and a pool smaller than the range's page count
surfaces as a runtime panic (out-of-bounds frame-pool lookup) the first
time an in-range fault hits a page whose index is beyond the pool. -/
theorem spawn_no_validation (uspace : AddrSpace) (ustack_top ustack_vaddr : Nat)
    (stack_pages : SharedPages) (gw : UserContext → Option Int × UserContext)
    (pt : PageTable) (ctx : UserContext) (addr f : Nat) :
    (spawn_user_task uspace ustack_top ustack_vaddr stack_pages).env
      = ⟨ustack_top, ustack_vaddr, stack_pages⟩ ∧
    (ustack_vaddr ≤ addr → addr < ustack_top →
     stack_pages.phys_pages.length ≤ pageIndex ustack_vaddr addr →
     dispatchStep (spawn_user_task uspace ustack_top ustack_vaddr stack_pages).env
       gw pt ctx (.PageFault addr f) = .Panic) := by
  refine ⟨rfl, ?_⟩
  intro h1 h2 h3
  simp only [spawn_user_task, dispatchStep]
  rw [if_pos ⟨h1, h2⟩]
  simp [List.getElem?_eq_none h3]

/-- Witness for the amended C3 at the concrete mismatched spawn. -/
theorem spawn_no_validation_witness :
    (spawn_user_task ⟨[], 7⟩ 0x3000 0x1000 ⟨[42]⟩).env = ⟨0x3000, 0x1000, ⟨[42]⟩⟩ ∧
    dispatchStep (spawn_user_task ⟨[], 7⟩ 0x3000 0x1000 ⟨[42]⟩).env gwResume [] ctx0
      (.PageFault 0x2000 0) = .Panic :=
  ⟨(spawn_no_validation ⟨[], 7⟩ 0x3000 0x1000 ⟨[42]⟩ gwResume [] ctx0 0x2000 0).1,
   (spawn_no_validation ⟨[], 7⟩ 0x3000 0x1000 ⟨[42]⟩ gwResume [] ctx0 0x2000 0).2
     (by decide) (by decide) (by decide)⟩

end LazyMapping
